import Mathlib

/-
  Verification of the client-side API integration layer (src/lib/api.ts).

  The module is a set of asynchronous network functions.  The embedding makes
  every network interaction explicit: each public function takes a
  `FetchOutcome` argument describing what the platform `fetch` call and the
  subsequent `response.json()` decoding did (threw, or produced a status and a
  JSON body), and returns either a value or the JavaScript exception that the
  source would propagate.  JSON values are modelled by a small AST; JavaScript
  string operations (regex section matching, `trim`, truthiness) are modelled
  character by character over `List Char`.
-/

namespace DRApi

/-- A JSON value, as produced by `response.json()`.  Object keys are assumed
distinct (duplicate keys in a JSON text are not modelled). -/
inductive Json where
  | null
  | bool (b : Bool)
  | num (q : Rat)
  | str (s : String)
  | arr (elems : List Json)
  | obj (fields : List (String × Json))

/-- Property access `v[key]`: own field of an object, `undefined` (`none`)
otherwise.  Models reading a named property of a decoded JSON value. -/
def Json.getField : Json → String → Option Json
  | .obj fields, key => fields.lookup key
  | _, _ => none

/-- Index access `v[i]` for a numeric index: array element, object property
named by the decimal numeral, single-character string for string values,
`undefined` (`none`) otherwise. -/
def Json.index : Json → Nat → Option Json
  | .arr xs, i => xs.get? i
  | .obj fields, i => fields.lookup (toString i)
  | .str s, i => (s.toList.get? i).map (fun ch => .str (String.mk [ch]))
  | _, _ => none

/-- JavaScript truthiness of a JSON value: `null`, `false`, `0` and `""` are
falsy, everything else is truthy. -/
def Json.truthy : Json → Bool
  | .null => false
  | .bool b => b
  | .num q => !(q == 0)
  | .str s => !(s == "")
  | .arr _ => true
  | .obj _ => true

/-- A JavaScript exception as observed by a caller. -/
inductive Thrown where
  | exn (message : String)
  | errObj (message : Json)

/-- What one `fetch` round trip did: the promise rejected (network failure),
or an HTTP response arrived with a status code, whose body decodes to a JSON
value or makes `response.json()` reject. -/
inductive FetchOutcome where
  | threw (message : String)
  | response (status : Nat) (body : Except String Json)

/-- `Response.ok` of the fetch API: status in the range 200-299. -/
def responseOk (status : Nat) : Bool := 200 ≤ status && status ≤ 299

/-- `interface AnalysisResult` (src/lib/api.ts lines 13-18).  The source never
validates that a decoded body has this shape; `analyzeImage` returns the JSON
verbatim, merely ascribed this type. -/
structure AnalysisResult where
  detailed_classification : List (String × Rat)
  highest_probability_class : String

/-- `interface GeminiAssessment` (src/lib/api.ts lines 20-24). -/
structure GeminiAssessment where
  description : String
  cause : String
  remedy : String
deriving DecidableEq

/-! ## Fallback table (src/lib/api.ts lines 99-133) -/

/-- The object literal `assessments` of `getFallbackAssessment`. -/
def fallbackTable : List (String × GeminiAssessment) :=
  [ ("No DR",
     { description := "Your retinal scan shows no signs of diabetic retinopathy. The blood vessels in your retina appear healthy without any diabetes-related damage. This is an excellent result, but continued monitoring is important as diabetic retinopathy can develop over time in people with diabetes."
     , cause := "Not applicable - no diabetic retinopathy detected. Your current diabetes management appears to be effectively protecting your eye health."
     , remedy := "Maintain regular annual eye exams and keep your blood sugar levels well controlled." })
  , ("Mild",
     { description := "Your scan indicates mild non-proliferative diabetic retinopathy (NPDR). Small areas of balloon-like swelling called microaneurysms have been detected in the retina\x27s blood vessels. At this early stage, there is typically no noticeable vision loss, but it signals that diabetes is beginning to affect your eyes."
     , cause := "This early stage may be caused by prolonged periods of elevated blood sugar levels, which weaken the tiny blood vessels in the retina. Contributing factors could include inconsistent diabetes management, high blood pressure, or duration of diabetes."
     , remedy := "Schedule a follow-up with your ophthalmologist within 6-12 months and focus on strict blood sugar control." })
  , ("Moderate",
     { description := "Moderate non-proliferative diabetic retinopathy has been detected. The blood vessels in your retina are showing more significant damage, with some vessels becoming blocked. This can lead to reduced blood flow to parts of your retina and may start affecting your vision quality."
     , cause := "Progression to this stage is typically associated with chronic hyperglycemia over several years, combined with factors like uncontrolled hypertension, high cholesterol, or smoking. Inadequate diabetes management accelerates vessel damage."
     , remedy := "Consult your ophthalmologist within 3-6 months for detailed examination and potential treatment planning." })
  , ("Severe",
     { description := "Your scan reveals severe non-proliferative diabetic retinopathy. Many blood vessels in your retina are blocked, depriving several areas of adequate blood supply. This significantly increases the risk of progression to proliferative diabetic retinopathy and potential vision loss."
     , cause := "Severe retinopathy usually results from years of poorly controlled diabetes with persistent high blood sugar, often compounded by hypertension and kidney disease. The extensive blockage indicates significant cumulative damage to retinal blood vessels."
     , remedy := "Seek urgent consultation with a retina specialist within 2-4 weeks for possible laser treatment or injections." })
  , ("Proliferative DR",
     { description := "Proliferative diabetic retinopathy (PDR), the most advanced stage, has been detected. New, abnormal blood vessels are growing on the retina\x27s surface. These fragile vessels can leak blood into the eye and cause retinal detachment, leading to severe vision loss or blindness if untreated."
     , cause := "PDR develops when severe oxygen deprivation triggers abnormal blood vessel growth. This typically results from long-standing diabetes with poor glycemic control, often combined with hypertension, nephropathy, and delayed treatment of earlier retinopathy stages."
     , remedy := "Seek immediate medical attention from a retina specialist for urgent treatment including laser therapy or vitrectomy." })
  ]

/-- The own-property names of `Object.prototype`.  The object literal
`assessments` inherits from `Object.prototype`, so bracket access with one of
these names yields the inherited member (a function, or the prototype object
itself for `__proto__`) rather than `undefined`. -/
def objectProtoKeys : List String :=
  ["constructor", "hasOwnProperty", "isPrototypeOf", "propertyIsEnumerable",
   "toLocaleString", "toString", "valueOf", "__defineGetter__", "__defineSetter__",
   "__lookupGetter__", "__lookupSetter__", "__proto__"]

/-- What `assessments[classification] || { generic triple }` evaluates to:
one of the authored or generic assessment objects, or — for a label naming an
`Object.prototype` member — the inherited member, which is truthy (a function
or an object) and is therefore kept by the `||`. -/
inductive FallbackResult where
  | assessment (a : GeminiAssessment)
  | protoMember (name : String)
deriving DecidableEq

/-- `getFallbackAssessment` (src/lib/api.ts lines 99-133):
`assessments[classification] || { generic triple interpolating the label }`.
Bracket access consults the prototype chain: an own key yields its triple, an
`Object.prototype` member name yields the truthy inherited member (so the
`||` keeps it), and only a genuinely absent key (`undefined`, falsy) reaches
the generic triple. -/
def getFallbackAssessment (classification : String) : FallbackResult :=
  match fallbackTable.lookup classification with
  | some a => .assessment a
  | none =>
    if objectProtoKeys.contains classification then .protoMember classification
    else
      .assessment
      { description := classification ++ " has been detected in your retinal scan. This condition affects the blood vessels in the retina and may impact your vision if left untreated. The severity level indicates how much the retina has been affected by diabetes-related changes."
      , cause := "Diabetic retinopathy is generally caused by prolonged high blood sugar levels damaging the blood vessels in the retina. Contributing factors may include duration of diabetes, blood pressure, cholesterol levels, and overall diabetes management."
      , remedy := "Please consult with an ophthalmologist for a comprehensive eye examination and treatment plan." }

/-! ## Text parsing (src/lib/api.ts lines 77-89)

The source parses the candidate text with three regexes:
  `/DESCRIPTION:\s*([\s\S]*?)(?=CAUSE:|$)/i`
  `/CAUSE:\s*([\s\S]*?)(?=REMEDY:|$)/i`
  `/REMEDY:\s*([\s\S]*?)$/i`
Each finds the first case-insensitive occurrence of its label, greedily skips
whitespace, and lazily captures up to the first position where the stop label
begins (or to end of string, which is the only stop of the third regex and the
fallback stop of the first two).  The captured group is then trimmed, and a
falsy (empty) result is replaced by a per-field default. -/

/-- JavaScript whitespace, as matched by `\s` and removed by
`String.prototype.trim`: the ECMAScript WhiteSpace set (TAB, VT, FF, SP,
NBSP, ZWNBSP and the Unicode Zs category) together with the LineTerminators
(LF, CR, LS, PS). -/
def isWs (ch : Char) : Bool :=
  ch == ' ' || ch == '\t' || ch == '\n' || ch == '\x0d' || ch == '\x0b' || ch == '\x0c' ||
  ch == '\u00A0' || ch == '\u1680' || (0x2000 ≤ ch.toNat && ch.toNat ≤ 0x200A) ||
  ch == '\u2028' || ch == '\u2029' || ch == '\u202F' || ch == '\u205F' ||
  ch == '\u3000' || ch == '\uFEFF'

/-- `String.prototype.trim`: remove whitespace from both ends. -/
def jsTrim (s : List Char) : List Char :=
  ((s.dropWhile isWs).reverse.dropWhile isWs).reverse

/-- Lower-case image of a character sequence; case-insensitive regex matching
compares these images. -/
def lcStr (s : List Char) : List Char := s.map Char.toLower

/-- Case-insensitive "the pattern starts here" test. -/
def isPrefixCI : List Char → List Char → Bool
  | [], _ => true
  | _ :: _, [] => false
  | p :: ps, ch :: cs => (p.toLower == ch.toLower) && isPrefixCI ps cs

/-- Index of the first case-insensitive occurrence of `pat` in `s` (the
position a regex search for a literal pattern finds). -/
def findCI (pat : List Char) : List Char → Option Nat
  | [] => if isPrefixCI pat [] then some 0 else none
  | ch :: cs => if isPrefixCI pat (ch :: cs) then some 0 else (findCI pat cs).map (· + 1)

/-- The capture group of `/LAB:\s*([\s\S]*?)(?=STOP:|$)/i` (with `stop = none`
for the remedy regex, whose only stop is end of string): find the first
case-insensitive occurrence of the label, skip whitespace greedily, capture up
to the first case-insensitive occurrence of the stop label or to end of
string.  `none` when the label does not occur (the regex does not match). -/
def sectionCapture (lab : List Char) (stop : Option (List Char)) (text : List Char) :
    Option (List Char) :=
  match findCI lab text with
  | none => none
  | some i =>
    let rest := (text.drop (i + lab.length)).dropWhile isWs
    match stop with
    | none => some rest
    | some stopPat =>
      match findCI stopPat rest with
      | none => some rest
      | some j => some (rest.take j)

def descL : List Char := "DESCRIPTION:".toList
def causeL : List Char := "CAUSE:".toList
def remedyL : List Char := "REMEDY:".toList

/-- `text.match(/DESCRIPTION:\s*([\s\S]*?)(?=CAUSE:|$)/i)?.[1]`. -/
def descriptionMatch (text : List Char) : Option (List Char) :=
  sectionCapture descL (some causeL) text

/-- `text.match(/CAUSE:\s*([\s\S]*?)(?=REMEDY:|$)/i)?.[1]`. -/
def causeMatch (text : List Char) : Option (List Char) :=
  sectionCapture causeL (some remedyL) text

/-- `text.match(/REMEDY:\s*([\s\S]*?)$/i)?.[1]`. -/
def remedyMatch (text : List Char) : Option (List Char) :=
  sectionCapture remedyL none text

/-- `capture?.trim() || dflt`: the default is used when the regex did not
match, and also when the trimmed capture is the empty string (falsy). -/
def fieldOrDefault (capture : Option (List Char)) (dflt : String) : String :=
  match capture with
  | none => dflt
  | some cap => if jsTrim cap = [] then dflt else String.mk (jsTrim cap)

/-- The result object built at src/lib/api.ts lines 85-89 from the candidate
text. -/
def parseGeminiText (text : List Char) : GeminiAssessment :=
  { description := fieldOrDefault (descriptionMatch text) "Assessment not available."
  , cause := fieldOrDefault (causeMatch text) "Cause assessment not available."
  , remedy := fieldOrDefault (remedyMatch text) "Please consult with a healthcare professional." }

/-! ## Assessment generator (src/lib/api.ts lines 32-94) -/

/-- `data.candidates?.[0]?.content?.parts?.[0]?.text` — the optional chain
short-circuits to `undefined` (`none`) whenever a step yields `undefined` or
`null`. -/
def candidateTextValue (data : Json) : Option Json :=
  ((((data.getField "candidates").bind (fun v => v.index 0)).bind
      (fun v => v.getField "content")).bind
        (fun v => v.getField "parts")).bind
          (fun v => (v.index 0).bind (fun w => w.getField "text"))

/-- Lines 77-89 after `response.json()` succeeded with value `data`:
`data.candidates` throws on `null`; `... || ""` replaces an `undefined` or
falsy chain result by `""`; calling `.match` on a truthy non-string throws. -/
def geminiParseStep (data : Json) : Except Thrown GeminiAssessment :=
  match data with
  | .null => .error (.exn "TypeError: cannot read properties of null")
  | _ =>
    match candidateTextValue data with
    | some (.str s) => .ok (parseGeminiText s.toList)
    | some v =>
      if v.truthy then .error (.exn "TypeError: text.match is not a function")
      else .ok (parseGeminiText [])
    | none => .ok (parseGeminiText [])

/-- The body of the `try` block of `getGeminiAssessment`: a non-ok status
returns the fallback lookup value without touching the body; otherwise the
body is decoded (its rejection propagates) and parsed into an assessment
object. -/
def geminiTryBody (classification : String) (outcome : FetchOutcome) :
    Except Thrown FallbackResult :=
  match outcome with
  | .threw m => .error (.exn m)
  | .response status body =>
    if !(responseOk status) then .ok (getFallbackAssessment classification)
    else
      match body with
      | .error m => .error (.exn m)
      | .ok data =>
        match geminiParseStep data with
        | .ok a => .ok (.assessment a)
        | .error e => .error e

/-- `getGeminiAssessment` (src/lib/api.ts lines 32-94).  `probability` enters
only the outbound prompt text, never the result.  The surrounding
`try ... catch` converts every thrown error into the fallback lookup value. -/
def getGeminiAssessment (classification : String) (probability : Rat)
    (outcome : FetchOutcome) : Except Thrown FallbackResult :=
  match geminiTryBody classification outcome with
  | .ok a => .ok a
  | .error _ => .ok (getFallbackAssessment classification)

/-! ## Classifier client (src/lib/api.ts lines 140-163) -/

/-- The string `` `Server error: ${response.status}` ``. -/
def serverErrorMsg (status : Nat) : String :=
  "Server error: " ++ toString status

/-- What the non-ok branch of `analyzeImage` throws, given the decoded error
body.  `errorData.detail` on a body that decoded to JSON `null` itself throws
a TypeError (the `.catch(() => ({}))` only guards the `response.json()`
rejection, not a successfully decoded `null`); otherwise
`new Error(errorData.detail || serverErrorMsg)` is thrown, a falsy `detail`
selecting the generic message. -/
def analyzeDetailThrow (errorData : Json) (status : Nat) : Thrown :=
  match errorData with
  | .null => .exn "TypeError: cannot read properties of null"
  | _ =>
    match errorData.getField "detail" with
    | some v =>
      if v.truthy then .errObj v
      else .errObj (.str (serverErrorMsg status))
    | none => .errObj (.str (serverErrorMsg status))

/-- The body of the `try` block of `analyzeImage`.  On a non-ok status the
error body is decoded with `.catch(() => ({}))` and `analyzeDetailThrow` is
raised.  On an ok status the decoded body is returned verbatim —
`response.json()` rejections propagate. -/
def analyzeTryBody (outcome : FetchOutcome) : Except Thrown Json :=
  match outcome with
  | .threw m => .error (.exn m)
  | .response status body =>
    if !(responseOk status) then
      let errorData : Json := match body with
        | .ok v => v
        | .error _ => .obj []
      .error (analyzeDetailThrow errorData status)
    else
      match body with
      | .error m => .error (.exn m)
      | .ok v => .ok v

/-- `analyzeImage` (src/lib/api.ts lines 140-163): the `catch` block logs and
rethrows the same error, so every failure propagates to the caller.  The
returned JSON is ascribed type `AnalysisResult` without validation. -/
def analyzeImage (outcome : FetchOutcome) : Except Thrown Json :=
  match analyzeTryBody outcome with
  | .ok v => .ok v
  | .error e => .error e

/-! ## Health probe (src/lib/api.ts lines 169-177) -/

/-- The body of the `try` block of `checkServerHealth`: no status check, the
decoded body is returned verbatim. -/
def healthTryBody (outcome : FetchOutcome) : Except Thrown Json :=
  match outcome with
  | .threw m => .error (.exn m)
  | .response _ body =>
    match body with
    | .error m => .error (.exn m)
    | .ok v => .ok v

/-- The literal `{ status: "unhealthy", message: "Could not connect to server" }`. -/
def healthFallback : Json :=
  .obj [("status", .str "unhealthy"), ("message", .str "Could not connect to server")]

/-- `checkServerHealth` (src/lib/api.ts lines 169-177): any thrown error is
caught and replaced by the fixed fallback object. -/
def checkServerHealth (outcome : FetchOutcome) : Json :=
  match healthTryBody outcome with
  | .ok v => v
  | .error _ => healthFallback

/-- A generative-endpoint response body whose single candidate carries the
text `t`; used to state theorems about the parse path. -/
def candidateJson (t : String) : Json :=
  .obj [("candidates", .arr [.obj [("content",
    .obj [("parts", .arr [.obj [("text", .str t)]])])]])]

end DRApi

namespace DRApi

/-! ## Toolkit: facts about the case-insensitive search and trimming -/

theorem length_lcStr (s : List Char) : (lcStr s).length = s.length := by
  simp [lcStr]

theorem isPrefixCI_append_self (p t : List Char) : isPrefixCI p (p ++ t) = true := by
  induction p with
  | nil => rfl
  | cons c cs ih => simp [isPrefixCI, ih]

theorem isPrefixCI_congr (pat : List Char) {s t : List Char} (h : lcStr s = lcStr t) :
    isPrefixCI pat s = isPrefixCI pat t := by
  induction pat generalizing s t with
  | nil => rfl
  | cons p ps ih =>
    cases s with
    | nil =>
      cases t with
      | nil => rfl
      | cons b bs => simp [lcStr] at h
    | cons a as =>
      cases t with
      | nil => simp [lcStr] at h
      | cons b bs =>
        simp only [lcStr, List.map_cons, List.cons.injEq] at h
        obtain ⟨h1, h2⟩ := h
        simp only [isPrefixCI, h1]
        rw [ih (by simpa [lcStr] using h2)]

theorem isPrefixCI_variant_append (pat : List Char) {u : List Char}
    (h : lcStr u = lcStr pat) (z : List Char) : isPrefixCI pat (u ++ z) = true := by
  rw [@isPrefixCI_congr pat (u ++ z) (pat ++ z) (by simp [lcStr] at h ⊢; rw [h])]
  exact isPrefixCI_append_self pat z

theorem findCI_eq_some_of {pat s : List Char} {i : Nat}
    (h1 : isPrefixCI pat (s.drop i) = true)
    (h2 : ∀ j, j < i → isPrefixCI pat (s.drop j) = false) :
    findCI pat s = some i := by
  induction s generalizing i with
  | nil =>
    have hp : isPrefixCI pat [] = true := by simpa using h1
    have hi : i = 0 := by
      by_contra hne
      have h0 := h2 0 (Nat.pos_of_ne_zero hne)
      simp only [List.drop_nil] at h0
      rw [hp] at h0
      exact Bool.noConfusion h0
    subst hi
    simp [findCI, hp]
  | cons ch cs ih =>
    cases i with
    | zero =>
      simp only [List.drop_zero] at h1
      simp [findCI, h1]
    | succ k =>
      have h0 : isPrefixCI pat (ch :: cs) = false := by simpa using h2 0 (Nat.succ_pos k)
      have hk := @ih k (by simpa using h1)
        (fun j hj => by simpa using h2 (j + 1) (by omega))
      simp [findCI, h0, hk]

theorem findCI_eq_none_of {pat s : List Char}
    (h : ∀ j, isPrefixCI pat (s.drop j) = false) :
    findCI pat s = none := by
  induction s with
  | nil =>
    have h0 := h 0
    simp only [List.drop_nil] at h0
    simp [findCI, h0]
  | cons ch cs ih =>
    have h0 := by simpa using h 0
    have hk := ih (fun j => by simpa using h (j + 1))
    simp [findCI, h0, hk]

theorem drop_append_left (x y : List α) (n : Nat) :
    (x ++ y).drop (x.length + n) = y.drop n := by
  rw [← List.drop_drop, List.drop_left]

theorem toLower_eq_self_of_toNat {ch : Char} (h : ch.toNat < 65 ∨ 90 < ch.toNat) :
    ch.toLower = ch := by
  simp only [Char.toLower]
  rw [if_neg (by omega)]

theorem isWs_toLower_self {ch : Char} (h : isWs ch = true) : ch.toLower = ch := by
  apply toLower_eq_self_of_toNat
  simp only [isWs, Bool.or_eq_true, beq_iff_eq, Bool.and_eq_true,
    decide_eq_true_eq, or_assoc] at h
  rcases h with h | h | h | h | h | h | h | h | h | h | h | h | h | h | h
  all_goals first
    | (subst h; decide)
    | omega

theorem exists_cons_not_ws {u : List Char} {p0 : Char} {prest : List Char}
    (h : lcStr u = p0 :: prest) (hp : isWs p0 = false) :
    ∃ ch ct, u = ch :: ct ∧ isWs ch = false := by
  cases u with
  | nil => simp [lcStr] at h
  | cons ch ct =>
    refine ⟨ch, ct, rfl, ?_⟩
    simp only [lcStr, List.map_cons, List.cons.injEq] at h
    by_contra hws
    have hws' : isWs ch = true := by simpa using hws
    have hself := isWs_toLower_self hws'
    rw [hself] at h
    rw [h.1] at hws'
    rw [hp] at hws'
    exact Bool.noConfusion hws'

theorem dropWhile_append_cons_of_neg {a z : List α} {d : α} {p : α → Bool}
    (hd : p d = false) :
    (a ++ d :: z).dropWhile p = a.dropWhile p ++ d :: z := by
  rw [List.dropWhile_append]
  split
  · next h =>
    rw [List.isEmpty_iff] at h
    rw [h, List.dropWhile_cons_of_neg (by simp [hd]), List.nil_append]
  · rfl

theorem dropWhile_eq_drop_takeWhile (p : α → Bool) (l : List α) :
    l.dropWhile p = l.drop (l.takeWhile p).length := by
  induction l with
  | nil => rfl
  | cons c cs ih =>
    by_cases h : p c
    · simp [List.dropWhile_cons_of_pos h, List.takeWhile_cons_of_pos h, ih]
    · simp [List.dropWhile_cons_of_neg h, List.takeWhile_cons_of_neg h]

theorem length_takeWhile_add_dropWhile (p : α → Bool) (l : List α) :
    (l.takeWhile p).length + (l.dropWhile p).length = l.length := by
  rw [← List.length_append, List.takeWhile_append_dropWhile]

theorem jsTrim_dropWhile (l : List Char) : jsTrim (l.dropWhile isWs) = jsTrim l := by
  simp [jsTrim, List.dropWhile_idempotent]

theorem jsTrim_ne_nil_of_mem {l : List Char} {x : Char}
    (hx : x ∈ l) (hws : isWs x = false) : jsTrim l ≠ [] := by
  intro h
  simp only [jsTrim, List.reverse_eq_nil_iff] at h
  rw [List.dropWhile_eq_nil_iff] at h
  have hx' : x ∈ l.dropWhile isWs := by
    have := List.takeWhile_append_dropWhile isWs l
    rw [← this] at hx
    rcases List.mem_append.1 hx with hmem | hmem
    · exact absurd (List.mem_takeWhile_imp hmem) (by simp [hws])
    · exact hmem
  have := h x (by simpa using hx')
  rw [hws] at this
  exact Bool.noConfusion this

end DRApi

namespace DRApi

/-! ## Behaviour of the three regex captures on well-formed candidate text

Throughout, `dL`, `cL`, `rL` stand for arbitrary case variants of the three
labels (`lcStr` equal to the canonical label), so the lemmas exhibit the
case-insensitive matching of the source regexes. -/

theorem findCI_structured {pat u : List Char} (x z : List Char)
    (hu : lcStr u = lcStr pat)
    (hmin : ∀ j, j < x.length → isPrefixCI pat ((x ++ (u ++ z)).drop j) = false) :
    findCI pat (x ++ (u ++ z)) = some x.length := by
  apply findCI_eq_some_of
  · rw [List.drop_left]
    exact isPrefixCI_variant_append pat hu z
  · exact hmin

theorem descriptionMatch_wellformed {dL cL : List Char} (a z : List Char)
    (hdL : lcStr dL = lcStr descL) (hcL : lcStr cL = lcStr causeL)
    (h1 : ∀ j, j < dL.length + a.length →
      isPrefixCI causeL ((dL ++ (a ++ (cL ++ z))).drop j) = false) :
    descriptionMatch (dL ++ (a ++ (cL ++ z))) = some (a.dropWhile isWs) := by
  have hlen : dL.length = descL.length := by
    rw [← length_lcStr dL, hdL, length_lcStr]
  have hfind : findCI descL (dL ++ (a ++ (cL ++ z))) = some 0 := by
    apply findCI_eq_some_of
    · rw [List.drop_zero]
      exact isPrefixCI_variant_append descL hdL (a ++ (cL ++ z))
    · intro j hj
      omega
  obtain ⟨ch, ct, hct, hch⟩ := @exists_cons_not_ws cL 'c' ("ause:".toList)
    (by rw [hcL]; rfl) (by decide)
  have hdrop1 : (dL ++ (a ++ (cL ++ z))).drop (0 + descL.length) = a ++ (cL ++ z) := by
    rw [Nat.zero_add, ← hlen, List.drop_left]
  have hrest : (a ++ (cL ++ z)).dropWhile isWs = a.dropWhile isWs ++ (cL ++ z) := by
    rw [hct, List.cons_append, dropWhile_append_cons_of_neg hch, ← List.cons_append]
  have haw : a.takeWhile isWs ++ a.dropWhile isWs = a := List.takeWhile_append_dropWhile isWs a
  have halen : (a.takeWhile isWs).length + (a.dropWhile isWs).length = a.length :=
    length_takeWhile_add_dropWhile isWs a
  have htext : dL ++ (a ++ (cL ++ z)) =
      dL ++ (a.takeWhile isWs ++ (a.dropWhile isWs ++ (cL ++ z))) := by
    rw [show a.takeWhile isWs ++ (a.dropWhile isWs ++ (cL ++ z)) =
      (a.takeWhile isWs ++ a.dropWhile isWs) ++ (cL ++ z) from
        (List.append_assoc _ _ _).symm, haw]
  have hfind2 : findCI causeL (a.dropWhile isWs ++ (cL ++ z)) =
      some (a.dropWhile isWs).length := by
    apply findCI_eq_some_of
    · rw [List.drop_left]
      exact isPrefixCI_variant_append causeL hcL z
    · intro j hj
      have heq : (a.dropWhile isWs ++ (cL ++ z)).drop j =
          (dL ++ (a ++ (cL ++ z))).drop (dL.length + ((a.takeWhile isWs).length + j)) := by
        rw [htext, drop_append_left, drop_append_left]
      rw [heq]
      exact h1 _ (by omega)
  rw [descriptionMatch, sectionCapture, hfind]
  simp only [hdrop1, hrest, hfind2]
  rw [List.take_left]

theorem causeMatch_wellformed {cL rL : List Char} (x b z : List Char)
    (hcL : lcStr cL = lcStr causeL) (hrL : lcStr rL = lcStr remedyL)
    (h1 : ∀ j, j < x.length →
      isPrefixCI causeL ((x ++ (cL ++ (b ++ (rL ++ z)))).drop j) = false)
    (h2 : ∀ j, j < x.length + cL.length + b.length →
      isPrefixCI remedyL ((x ++ (cL ++ (b ++ (rL ++ z)))).drop j) = false) :
    causeMatch (x ++ (cL ++ (b ++ (rL ++ z)))) = some (b.dropWhile isWs) := by
  have hlen : cL.length = causeL.length := by
    rw [← length_lcStr cL, hcL, length_lcStr]
  have hfind : findCI causeL (x ++ (cL ++ (b ++ (rL ++ z)))) = some x.length :=
    findCI_structured x (b ++ (rL ++ z)) hcL h1
  obtain ⟨ch, ct, hct, hch⟩ := @exists_cons_not_ws rL 'r' ("emedy:".toList)
    (by rw [hrL]; rfl) (by decide)
  have hdrop1 : (x ++ (cL ++ (b ++ (rL ++ z)))).drop (x.length + causeL.length) =
      b ++ (rL ++ z) := by
    rw [← hlen, drop_append_left, List.drop_left]
  have hrest : (b ++ (rL ++ z)).dropWhile isWs = b.dropWhile isWs ++ (rL ++ z) := by
    rw [hct, List.cons_append, dropWhile_append_cons_of_neg hch, ← List.cons_append]
  have hbw : b.takeWhile isWs ++ b.dropWhile isWs = b := List.takeWhile_append_dropWhile isWs b
  have hblen : (b.takeWhile isWs).length + (b.dropWhile isWs).length = b.length :=
    length_takeWhile_add_dropWhile isWs b
  have htext : x ++ (cL ++ (b ++ (rL ++ z))) =
      x ++ (cL ++ (b.takeWhile isWs ++ (b.dropWhile isWs ++ (rL ++ z)))) := by
    rw [show b.takeWhile isWs ++ (b.dropWhile isWs ++ (rL ++ z)) =
      (b.takeWhile isWs ++ b.dropWhile isWs) ++ (rL ++ z) from
        (List.append_assoc _ _ _).symm, hbw]
  have hfind2 : findCI remedyL (b.dropWhile isWs ++ (rL ++ z)) =
      some (b.dropWhile isWs).length := by
    apply findCI_eq_some_of
    · rw [List.drop_left]
      exact isPrefixCI_variant_append remedyL hrL z
    · intro j hj
      have heq : (b.dropWhile isWs ++ (rL ++ z)).drop j =
          (x ++ (cL ++ (b ++ (rL ++ z)))).drop
            (x.length + (cL.length + ((b.takeWhile isWs).length + j))) := by
        rw [htext, drop_append_left, drop_append_left, drop_append_left]
      rw [heq]
      exact h2 _ (by omega)
  rw [causeMatch, sectionCapture, hfind]
  simp only [hdrop1, hrest, hfind2]
  rw [List.take_left]

theorem remedyMatch_wellformed {rL : List Char} (x c : List Char)
    (hrL : lcStr rL = lcStr remedyL)
    (h2 : ∀ j, j < x.length → isPrefixCI remedyL ((x ++ (rL ++ c)).drop j) = false) :
    remedyMatch (x ++ (rL ++ c)) = some (c.dropWhile isWs) := by
  have hlen : rL.length = remedyL.length := by
    rw [← length_lcStr rL, hrL, length_lcStr]
  have hfind : findCI remedyL (x ++ (rL ++ c)) = some x.length :=
    findCI_structured x c hrL h2
  have hdrop1 : (x ++ (rL ++ c)).drop (x.length + remedyL.length) = c := by
    rw [← hlen, drop_append_left, List.drop_left]
  rw [remedyMatch, sectionCapture, hfind]
  simp only [hdrop1]

theorem causeMatch_none {s : List Char}
    (hno : ∀ j, isPrefixCI causeL (s.drop j) = false) :
    causeMatch s = none := by
  rw [causeMatch, sectionCapture, findCI_eq_none_of hno]

theorem descriptionMatch_noCause {dL : List Char} (s : List Char)
    (hdL : lcStr dL = lcStr descL)
    (hno : ∀ j, isPrefixCI causeL ((dL ++ s).drop j) = false) :
    descriptionMatch (dL ++ s) = some (s.dropWhile isWs) := by
  have hlen : dL.length = descL.length := by
    rw [← length_lcStr dL, hdL, length_lcStr]
  have hfind : findCI descL (dL ++ s) = some 0 := by
    apply findCI_eq_some_of
    · rw [List.drop_zero]
      exact isPrefixCI_variant_append descL hdL s
    · intro j hj
      omega
  have hdrop1 : (dL ++ s).drop (0 + descL.length) = s := by
    rw [Nat.zero_add, ← hlen, List.drop_left]
  have hnone : findCI causeL (s.dropWhile isWs) = none := by
    apply findCI_eq_none_of
    intro j
    have heq : (s.dropWhile isWs).drop j = (dL ++ s).drop
        (dL.length + ((s.takeWhile isWs).length + j)) := by
      rw [drop_append_left, dropWhile_eq_drop_takeWhile, List.drop_drop]
    rw [heq]
    exact hno (dL.length + ((s.takeWhile isWs).length + j))
  rw [descriptionMatch, sectionCapture, hfind]
  simp only [hdrop1, hnone]

end DRApi

namespace DRApi

/-! ## Wiring helpers -/

theorem toList_mk (l : List Char) : (String.mk l).toList = l := rfl

theorem geminiParseStep_candidateJson (t : String) :
    geminiParseStep (candidateJson t) = .ok (parseGeminiText t.toList) := rfl

/-- Every outcome makes `getGeminiAssessment` resolve with some assessment. -/
theorem getGeminiAssessment_total (classification : String) (probability : Rat)
    (outcome : FetchOutcome) :
    ∃ a, getGeminiAssessment classification probability outcome = .ok a := by
  unfold getGeminiAssessment
  cases geminiTryBody classification outcome with
  | ok a => exact ⟨a, rfl⟩
  | error e => exact ⟨getFallbackAssessment classification, rfl⟩

/-- When the try block throws, the catch block returns the fallback. -/
theorem getGeminiAssessment_error_fallback (classification : String) (probability : Rat)
    (outcome : FetchOutcome) (e : Thrown)
    (h : geminiTryBody classification outcome = .error e) :
    getGeminiAssessment classification probability outcome =
      .ok (getFallbackAssessment classification) := by
  unfold getGeminiAssessment
  rw [h]

/-- On an ok status whose body carries candidate text `t`, the result is the
parse of `t`. -/
theorem getGeminiAssessment_parse (classification : String) (probability : Rat)
    (status : Nat) (t : String) (hok : responseOk status = true) :
    getGeminiAssessment classification probability
      (.response status (.ok (candidateJson t))) =
      .ok (.assessment (parseGeminiText t.toList)) := by
  have hbody : geminiTryBody classification (.response status (.ok (candidateJson t))) =
      .ok (.assessment (parseGeminiText t.toList)) := by
    rw [geminiTryBody, hok]
    simp [geminiParseStep_candidateJson]
  unfold getGeminiAssessment
  rw [hbody]

end DRApi

namespace DRApi

/-! ## The claims -/

/-- Claim C1: for every classification string and every probability number,
`getGeminiAssessment` resolves to a value and never rejects; any error thrown
during the fetch or the parse is caught internally and the function returns
the fallback-table lookup result for the given classification instead. -/
theorem gemini_never_rejects (classification : String) (probability : Rat)
    (outcome : FetchOutcome) :
    (∃ a, getGeminiAssessment classification probability outcome = .ok a) ∧
    (∀ e, geminiTryBody classification outcome = .error e →
      getGeminiAssessment classification probability outcome =
        .ok (getFallbackAssessment classification)) :=
  ⟨getGeminiAssessment_total classification probability outcome,
   fun e he => getGeminiAssessment_error_fallback classification probability outcome e he⟩

theorem gemini_never_rejects_witness :
    getGeminiAssessment "No DR" 0 (.threw "network failure") =
      .ok (getFallbackAssessment "No DR") :=
  (gemini_never_rejects "No DR" 0 (.threw "network failure")).2
    (.exn "network failure") rfl

/-- A label that is neither one of the five keys nor an `Object.prototype`
member name reaches the generic branch: its triple interpolates the label and
carries the generic remedy. -/
theorem fallback_generic_unknown_label (classification : String)
    (h1 : classification ≠ "No DR") (h2 : classification ≠ "Mild")
    (h3 : classification ≠ "Moderate") (h4 : classification ≠ "Severe")
    (h5 : classification ≠ "Proliferative DR")
    (hp : objectProtoKeys.contains classification = false) :
    getFallbackAssessment classification =
      .assessment
      { description := classification ++ " has been detected in your retinal scan. This condition affects the blood vessels in the retina and may impact your vision if left untreated. The severity level indicates how much the retina has been affected by diabetes-related changes."
      , cause := "Diabetic retinopathy is generally caused by prolonged high blood sugar levels damaging the blood vessels in the retina. Contributing factors may include duration of diabetes, blood pressure, cholesterol levels, and overall diabetes management."
      , remedy := "Please consult with an ophthalmologist for a comprehensive eye examination and treatment plan." } := by
  have e1 : (classification == "No DR") = false := beq_eq_false_iff_ne.mpr h1
  have e2 : (classification == "Mild") = false := beq_eq_false_iff_ne.mpr h2
  have e3 : (classification == "Moderate") = false := beq_eq_false_iff_ne.mpr h3
  have e4 : (classification == "Severe") = false := beq_eq_false_iff_ne.mpr h4
  have e5 : (classification == "Proliferative DR") = false := beq_eq_false_iff_ne.mpr h5
  have hnone : fallbackTable.lookup classification = none := by
    simp [fallbackTable, List.lookup, e1, e2, e3, e4, e5]
  rw [getFallbackAssessment, hnone]
  rw [if_neg (by rw [hp]; exact Bool.noConfusion)]

/-- Claim C2 (code bug): the claim — and the spec invariant it restates —
requires every label outside the five known categories to reach the generic
triple, but the lookup `assessments[classification]` consults the prototype
chain: for the label `"toString"` the program gets the truthy inherited
`Object.prototype.toString` function, the `||` keeps it, and the caller
receives that function instead of any `GeminiAssessment`; in particular the
result is not the generic triple the claim requires at this label. -/
theorem fallback_proto_key_bug :
    getFallbackAssessment "toString" = .protoMember "toString" ∧
    getFallbackAssessment "toString" ≠
      .assessment
      { description := "toString" ++ " has been detected in your retinal scan. This condition affects the blood vessels in the retina and may impact your vision if left untreated. The severity level indicates how much the retina has been affected by diabetes-related changes."
      , cause := "Diabetic retinopathy is generally caused by prolonged high blood sugar levels damaging the blood vessels in the retina. Contributing factors may include duration of diabetes, blood pressure, cholesterol levels, and overall diabetes management."
      , remedy := "Please consult with an ophthalmologist for a comprehensive eye examination and treatment plan." } := by
  refine ⟨rfl, ?_⟩
  intro hcontra
  rw [show getFallbackAssessment "toString" = .protoMember "toString" from rfl] at hcontra
  exact FallbackResult.noConfusion hcontra

/-- Claim C3: for each of the five known category labels,
`getFallbackAssessment` returns exactly the pre-authored
description/cause/remedy triple for that label (literal string equality on
all three fields). -/
theorem fallback_known_labels :
    getFallbackAssessment "No DR" =
      .assessment
      { description := "Your retinal scan shows no signs of diabetic retinopathy. The blood vessels in your retina appear healthy without any diabetes-related damage. This is an excellent result, but continued monitoring is important as diabetic retinopathy can develop over time in people with diabetes."
      , cause := "Not applicable - no diabetic retinopathy detected. Your current diabetes management appears to be effectively protecting your eye health."
      , remedy := "Maintain regular annual eye exams and keep your blood sugar levels well controlled." } ∧
    getFallbackAssessment "Mild" =
      .assessment
      { description := "Your scan indicates mild non-proliferative diabetic retinopathy (NPDR). Small areas of balloon-like swelling called microaneurysms have been detected in the retina\x27s blood vessels. At this early stage, there is typically no noticeable vision loss, but it signals that diabetes is beginning to affect your eyes."
      , cause := "This early stage may be caused by prolonged periods of elevated blood sugar levels, which weaken the tiny blood vessels in the retina. Contributing factors could include inconsistent diabetes management, high blood pressure, or duration of diabetes."
      , remedy := "Schedule a follow-up with your ophthalmologist within 6-12 months and focus on strict blood sugar control." } ∧
    getFallbackAssessment "Moderate" =
      .assessment
      { description := "Moderate non-proliferative diabetic retinopathy has been detected. The blood vessels in your retina are showing more significant damage, with some vessels becoming blocked. This can lead to reduced blood flow to parts of your retina and may start affecting your vision quality."
      , cause := "Progression to this stage is typically associated with chronic hyperglycemia over several years, combined with factors like uncontrolled hypertension, high cholesterol, or smoking. Inadequate diabetes management accelerates vessel damage."
      , remedy := "Consult your ophthalmologist within 3-6 months for detailed examination and potential treatment planning." } ∧
    getFallbackAssessment "Severe" =
      .assessment
      { description := "Your scan reveals severe non-proliferative diabetic retinopathy. Many blood vessels in your retina are blocked, depriving several areas of adequate blood supply. This significantly increases the risk of progression to proliferative diabetic retinopathy and potential vision loss."
      , cause := "Severe retinopathy usually results from years of poorly controlled diabetes with persistent high blood sugar, often compounded by hypertension and kidney disease. The extensive blockage indicates significant cumulative damage to retinal blood vessels."
      , remedy := "Seek urgent consultation with a retina specialist within 2-4 weeks for possible laser treatment or injections." } ∧
    getFallbackAssessment "Proliferative DR" =
      .assessment
      { description := "Proliferative diabetic retinopathy (PDR), the most advanced stage, has been detected. New, abnormal blood vessels are growing on the retina\x27s surface. These fragile vessels can leak blood into the eye and cause retinal detachment, leading to severe vision loss or blindness if untreated."
      , cause := "PDR develops when severe oxygen deprivation triggers abnormal blood vessel growth. This typically results from long-standing diabetes with poor glycemic control, often combined with hypertension, nephropathy, and delayed treatment of earlier retinopathy stages."
      , remedy := "Seek immediate medical attention from a retina specialist for urgent treatment including laser therapy or vitrectomy." } :=
  ⟨rfl, rfl, rfl, rfl, rfl⟩

/-- Claim C6: whenever the generative endpoint answers with a non-success
status, `getGeminiAssessment` returns exactly the fallback-table result for
the supplied classification, for every body — including one whose decoding
would throw — so the body is never parsed, and nothing is raised. -/
theorem gemini_non_success_fallback (classification : String) (probability : Rat)
    (status : Nat) (body : Except String Json)
    (h : responseOk status = false) :
    getGeminiAssessment classification probability (.response status body) =
      .ok (getFallbackAssessment classification) := by
  have hbody : geminiTryBody classification (.response status body) =
      .ok (getFallbackAssessment classification) := by
    have hred : geminiTryBody classification (.response status body) =
        if !(responseOk status) then .ok (getFallbackAssessment classification)
        else
          match body with
          | .error m => .error (.exn m)
          | .ok data =>
            match geminiParseStep data with
            | .ok a => .ok (.assessment a)
            | .error e => .error e := rfl
    rw [hred, h]
    rfl
  unfold getGeminiAssessment
  rw [hbody]

theorem gemini_non_success_fallback_witness :
    getGeminiAssessment "Severe" 0 (.response 500 (.error "malformed body")) =
      .ok (getFallbackAssessment "Severe") :=
  gemini_non_success_fallback "Severe" 0 500 (.error "malformed body") rfl

/-- Claim C8: a network-level exception thrown during `analyzeImage`'s call
propagates to the caller as a rejection (never a silently returned default
result), and `analyzeImage` is the only one of the three public functions
that propagates failures: `getGeminiAssessment` always resolves with a value
and `checkServerHealth` converts every thrown error into its fallback
object. -/
theorem analyzeImage_propagates :
    (∀ m, analyzeImage (.threw m) = .error (.exn m)) ∧
    (∀ classification probability outcome,
      ∃ a, getGeminiAssessment classification probability outcome = .ok a) ∧
    (∀ outcome e, healthTryBody outcome = .error e →
      checkServerHealth outcome = healthFallback) := by
  refine ⟨fun m => rfl, getGeminiAssessment_total, ?_⟩
  intro outcome e h
  unfold checkServerHealth
  rw [h]

theorem analyzeImage_propagates_witness :
    analyzeImage (.threw "fetch failed") = .error (.exn "fetch failed") ∧
    checkServerHealth (.threw "fetch failed") = healthFallback :=
  ⟨analyzeImage_propagates.1 "fetch failed",
   analyzeImage_propagates.2.2 (.threw "fetch failed") (.exn "fetch failed") rfl⟩

/-- Claim C9: `checkServerHealth` never raises: on success it returns the
decoded JSON body verbatim (no status check), and on any thrown exception —
fetch rejection or body decode failure — it resolves to exactly
`{status: "unhealthy", message: "Could not connect to server"}`. -/
theorem health_contract :
    (∀ status v, checkServerHealth (.response status (.ok v)) = v) ∧
    (∀ m, checkServerHealth (.threw m) = healthFallback) ∧
    (∀ status m, checkServerHealth (.response status (.error m)) = healthFallback) ∧
    healthFallback =
      .obj [("status", .str "unhealthy"), ("message", .str "Could not connect to server")] :=
  ⟨fun _ _ => rfl, fun _ => rfl, fun _ _ => rfl, rfl⟩

end DRApi

namespace DRApi

/-- A pattern that occurs nowhere inside the string occurs nowhere at all
(positions past the end only see the empty remainder). -/
theorem isPrefixCI_all_false_of_bounded {pat s : List Char} (hpat : pat ≠ [])
    (h : ∀ j, j < s.length → isPrefixCI pat (s.drop j) = false) :
    ∀ j, isPrefixCI pat (s.drop j) = false := by
  intro j
  by_cases hj : j < s.length
  · exact h j hj
  · rw [List.drop_of_length_le (by omega)]
    cases pat with
    | nil => exact absurd rfl hpat
    | cons p ps => rfl

/-- Claim C4: on a success response whose candidate text has the well-formed
shape `DESCRIPTION: A ... CAUSE: B ... REMEDY: C` (labels in order, matched
case-insensitively — `dL`, `cL`, `rL` are arbitrary case variants — and each
label occurring nowhere earlier than its own section), `getGeminiAssessment`
returns the three section texts, each running up to the next label or end of
string and trimmed of surrounding whitespace. -/
theorem gemini_parse_wellformed (classification : String) (probability : Rat)
    (status : Nat) (dL cL rL a b c : List Char)
    (hok : responseOk status = true)
    (hdL : lcStr dL = lcStr descL) (hcL : lcStr cL = lcStr causeL)
    (hrL : lcStr rL = lcStr remedyL)
    (h1 : ∀ j, j < dL.length + a.length →
      isPrefixCI causeL ((dL ++ (a ++ (cL ++ (b ++ (rL ++ c))))).drop j) = false)
    (h2 : ∀ j, j < dL.length + a.length + cL.length + b.length →
      isPrefixCI remedyL ((dL ++ (a ++ (cL ++ (b ++ (rL ++ c))))).drop j) = false)
    (ha : jsTrim a ≠ []) (hb : jsTrim b ≠ []) (hc : jsTrim c ≠ []) :
    getGeminiAssessment classification probability (.response status (.ok (candidateJson
      (String.mk (dL ++ (a ++ (cL ++ (b ++ (rL ++ c))))))))) =
      .ok (.assessment
        { description := String.mk (jsTrim a)
        , cause := String.mk (jsTrim b)
        , remedy := String.mk (jsTrim c) }) := by
  rw [getGeminiAssessment_parse classification probability status _ hok, toList_mk]
  have hdM : descriptionMatch (dL ++ (a ++ (cL ++ (b ++ (rL ++ c))))) =
      some (a.dropWhile isWs) :=
    descriptionMatch_wellformed a (b ++ (rL ++ c)) hdL hcL h1
  have hassoc1 : dL ++ (a ++ (cL ++ (b ++ (rL ++ c)))) =
      (dL ++ a) ++ (cL ++ (b ++ (rL ++ c))) := (List.append_assoc dL a _).symm
  have hcM : causeMatch (dL ++ (a ++ (cL ++ (b ++ (rL ++ c))))) =
      some (b.dropWhile isWs) := by
    rw [hassoc1]
    apply causeMatch_wellformed (dL ++ a) b c hcL hrL
    · intro j hj
      rw [← hassoc1]
      exact h1 j (by simpa using hj)
    · intro j hj
      rw [← hassoc1]
      refine h2 j ?_
      simp only [List.length_append] at hj
      omega
  have hassoc2 : dL ++ (a ++ (cL ++ (b ++ (rL ++ c)))) =
      (dL ++ (a ++ (cL ++ b))) ++ (rL ++ c) := by
    simp [List.append_assoc]
  have hrM : remedyMatch (dL ++ (a ++ (cL ++ (b ++ (rL ++ c))))) =
      some (c.dropWhile isWs) := by
    rw [hassoc2]
    apply remedyMatch_wellformed (dL ++ (a ++ (cL ++ b))) c hrL
    intro j hj
    rw [← hassoc2]
    refine h2 j ?_
    simp only [List.length_append] at hj
    omega
  simp only [parseGeminiText, hdM, hcM, hrM, fieldOrDefault, jsTrim_dropWhile]
  rw [if_neg ha, if_neg hb, if_neg hc]

theorem gemini_parse_wellformed_witness :
    getGeminiAssessment "Moderate" 0 (.response 200 (.ok (candidateJson
      "DESCRIPTION:\u00A0A\nCAUSE: B\nREMEDY: C"))) =
      .ok (.assessment { description := "A", cause := "B", remedy := "C" }) := by
  have h := gemini_parse_wellformed "Moderate" 0 200 "DESCRIPTION:".toList
    "CAUSE:".toList "REMEDY:".toList "\u00A0A\n".toList " B\n".toList " C".toList
    rfl rfl rfl rfl (by decide) (by decide) (by decide) (by decide) (by decide)
  exact h

/-- Claim C5 (amended): when the candidate text has a `DESCRIPTION:` section
and a `REMEDY:` section but no `CAUSE:` label anywhere, the cause field is the
default string `"Cause assessment not available."` and the remedy is the
trimmed `REMEDY:` section text; the description, however, is the trimmed text
from after `DESCRIPTION:` to the end of the string — it swallows the
`REMEDY:` section, because the description capture stops only at `CAUSE:` or
at end of string. -/
theorem gemini_missing_cause (classification : String) (probability : Rat)
    (status : Nat) (dL rL a c : List Char)
    (hok : responseOk status = true)
    (hdL : lcStr dL = lcStr descL) (hrL : lcStr rL = lcStr remedyL)
    (hno : ∀ j, isPrefixCI causeL ((dL ++ (a ++ (rL ++ c))).drop j) = false)
    (h2 : ∀ j, j < dL.length + a.length →
      isPrefixCI remedyL ((dL ++ (a ++ (rL ++ c))).drop j) = false)
    (hc : jsTrim c ≠ []) :
    getGeminiAssessment classification probability (.response status (.ok (candidateJson
      (String.mk (dL ++ (a ++ (rL ++ c))))))) =
      .ok (.assessment
        { description := String.mk (jsTrim (a ++ (rL ++ c)))
        , cause := "Cause assessment not available."
        , remedy := String.mk (jsTrim c) }) := by
  rw [getGeminiAssessment_parse classification probability status _ hok, toList_mk]
  have hdM : descriptionMatch (dL ++ (a ++ (rL ++ c))) =
      some ((a ++ (rL ++ c)).dropWhile isWs) :=
    descriptionMatch_noCause (a ++ (rL ++ c)) hdL hno
  have hcM : causeMatch (dL ++ (a ++ (rL ++ c))) = none := causeMatch_none hno
  have hassoc : dL ++ (a ++ (rL ++ c)) = (dL ++ a) ++ (rL ++ c) :=
    (List.append_assoc dL a _).symm
  have hrM : remedyMatch (dL ++ (a ++ (rL ++ c))) = some (c.dropWhile isWs) := by
    rw [hassoc]
    apply remedyMatch_wellformed (dL ++ a) c hrL
    intro j hj
    rw [← hassoc]
    exact h2 j (by simpa using hj)
  obtain ⟨ch, ct, hct, hch⟩ := @exists_cons_not_ws rL 'r' ("emedy:".toList)
    (by rw [hrL]; rfl) (by decide)
  have hmem : ch ∈ a ++ (rL ++ c) := by
    rw [hct]
    simp
  have hdne : jsTrim (a ++ (rL ++ c)) ≠ [] := jsTrim_ne_nil_of_mem hmem hch
  simp only [parseGeminiText, hdM, hcM, hrM, fieldOrDefault, jsTrim_dropWhile]
  rw [if_neg hdne, if_neg hc]

theorem gemini_missing_cause_counterexample :
    getGeminiAssessment "No DR" 0 (.response 200 (.ok (candidateJson
      "DESCRIPTION: A\nREMEDY: C"))) =
      .ok (.assessment
        { description := "A\nREMEDY: C"
        , cause := "Cause assessment not available."
        , remedy := "C" }) ∧
    ("A\nREMEDY: C" : String) ≠ "A" := by
  exact ⟨rfl, by decide⟩

theorem gemini_missing_cause_witness :
    getGeminiAssessment "Mild" 0 (.response 200 (.ok (candidateJson
      "DESCRIPTION: D\nREMEDY: R"))) =
      .ok (.assessment
        { description := "D\nREMEDY: R"
        , cause := "Cause assessment not available."
        , remedy := "R" }) := by
  have h := gemini_missing_cause "Mild" 0 200 "DESCRIPTION:".toList "REMEDY:".toList
    " D\n".toList " R".toList rfl rfl rfl
    (isPrefixCI_all_false_of_bounded (by decide) (by decide)) (by decide) (by decide)
  exact h

/-- Claim C7 (amended): on a failure status, `analyzeImage` rejects.  When
the error body decodes to JSON `null`, the `detail` access itself throws a
TypeError that propagates to the caller (the `.catch` only guards the
`response.json()` rejection).  Otherwise the rejection is an `Error` whose
message is the `detail` field when that field is present with a non-empty
(truthy) string value; when the body fails to decode, the field is absent, or
its value is the empty string (falsy), the message is the generic
`Server error: <status>` string. -/
theorem analyze_error_message (status : Nat) (fields : List (String × Json))
    (s m : String) (v : Json) (h : responseOk status = false) :
    ((Json.obj fields).getField "detail" = some (.str s) → s ≠ "" →
      analyzeImage (.response status (.ok (.obj fields))) = .error (.errObj (.str s))) ∧
    (analyzeImage (.response status (.error m)) =
      .error (.errObj (.str (serverErrorMsg status)))) ∧
    (v ≠ .null → v.getField "detail" = none →
      analyzeImage (.response status (.ok v)) =
        .error (.errObj (.str (serverErrorMsg status)))) ∧
    (analyzeImage (.response status (.ok .null)) =
      .error (.exn "TypeError: cannot read properties of null")) := by
  have hbody : ∀ body : Except String Json, analyzeTryBody (.response status body) =
      .error (analyzeDetailThrow
        (match body with | .ok v => v | .error _ => .obj []) status) := by
    intro body
    have hred : analyzeTryBody (.response status body) =
        if !(responseOk status) then
          .error (analyzeDetailThrow
            (match body with | .ok v => v | .error _ => .obj []) status)
        else
          match body with
          | .error mm => .error (.exn mm)
          | .ok v => .ok v := rfl
    rw [hred, h]
    rfl
  refine ⟨?_, ?_, ?_, ?_⟩
  · intro hdet hs
    have htruthy : (Json.str s).truthy = true := by
      simp [Json.truthy, beq_eq_false_iff_ne.mpr hs]
    have hthrow : analyzeDetailThrow (.obj fields) status = .errObj (.str s) := by
      have hred : analyzeDetailThrow (.obj fields) status =
          match (Json.obj fields).getField "detail" with
          | some w =>
            if w.truthy then Thrown.errObj w
            else Thrown.errObj (.str (serverErrorMsg status))
          | none => Thrown.errObj (.str (serverErrorMsg status)) := rfl
      rw [hred, hdet]
      simp [htruthy]
    unfold analyzeImage
    rw [hbody (.ok (.obj fields)), hthrow]
  · unfold analyzeImage
    rw [hbody (.error m)]
    rfl
  · intro hv hdet
    have hthrow : analyzeDetailThrow v status =
        .errObj (.str (serverErrorMsg status)) := by
      cases v with
      | null => exact absurd rfl hv
      | bool b => rfl
      | num q => rfl
      | str t => rfl
      | arr xs => rfl
      | obj fs =>
        have hred : analyzeDetailThrow (.obj fs) status =
            match (Json.obj fs).getField "detail" with
            | some w =>
              if w.truthy then Thrown.errObj w
              else Thrown.errObj (.str (serverErrorMsg status))
            | none => Thrown.errObj (.str (serverErrorMsg status)) := rfl
        rw [hred, hdet]
    unfold analyzeImage
    rw [hbody (.ok v), hthrow]
  · unfold analyzeImage
    rw [hbody (.ok .null)]
    rfl

theorem analyze_detail_empty_counterexample :
    analyzeImage (.response 422 (.ok (.obj [("detail", .str "")]))) =
      .error (.errObj (.str "Server error: 422")) ∧
    ("Server error: 422" : String) ≠ "" := by
  exact ⟨rfl, by decide⟩

theorem analyze_error_message_witness :
    analyzeImage (.response 422 (.ok (.obj [("detail", .str "bad file type")]))) =
      .error (.errObj (.str "bad file type")) :=
  (analyze_error_message 422 [("detail", .str "bad file type")] "bad file type" ""
    Json.null rfl).1 rfl (by decide)

/-- Claim C10: a parsed section whose label is present but whose captured
text trims to the empty string yields that field's fixed default string,
exactly as when the pattern does not match at all; the empty candidate text
yields all three defaults. -/
theorem parse_empty_capture_default (text cap : List Char) :
    (descriptionMatch text = some cap → jsTrim cap = [] →
      (parseGeminiText text).description = "Assessment not available.") ∧
    (causeMatch text = some cap → jsTrim cap = [] →
      (parseGeminiText text).cause = "Cause assessment not available.") ∧
    (remedyMatch text = some cap → jsTrim cap = [] →
      (parseGeminiText text).remedy = "Please consult with a healthcare professional.") ∧
    (descriptionMatch text = none →
      (parseGeminiText text).description = "Assessment not available.") ∧
    parseGeminiText [] =
      { description := "Assessment not available."
      , cause := "Cause assessment not available."
      , remedy := "Please consult with a healthcare professional." } := by
  refine ⟨?_, ?_, ?_, ?_, rfl⟩
  · intro hm hcap
    simp [parseGeminiText, fieldOrDefault, hm, hcap]
  · intro hm hcap
    simp [parseGeminiText, fieldOrDefault, hm, hcap]
  · intro hm hcap
    simp [parseGeminiText, fieldOrDefault, hm, hcap]
  · intro hm
    simp [parseGeminiText, fieldOrDefault, hm]

theorem parse_empty_capture_default_witness :
    (parseGeminiText "DESCRIPTION:\u00A0\u00A0CAUSE: B\nREMEDY: C".toList).description =
      "Assessment not available." :=
  (parse_empty_capture_default "DESCRIPTION:\u00A0\u00A0CAUSE: B\nREMEDY: C".toList []).1
    (by decide) rfl

end DRApi
